import Mathlib

/-!
Verification of the multi-source web content acquisition engine
(`src/sources/web_news.py`, `src/sources/futurism.py`, `src/sources/reddit.py`,
`src/sources/linkedin.py`, `src/llm/summarizer.py`, `src/main.py`).

The Python code is shallowly embedded: DOM observations (element texts,
attribute values, navigation outcomes) are explicit inputs, pure string
processing is translated function by function, and every `try/except`
block becomes a total function over an `Except`-valued oracle, so that
"no exception escapes" holds by construction and the caught/uncaught
distinction is visible in the definitions.
-/

/-! ## String utilities mirroring the Python primitives used by the code -/

/-- Python `needle in hay` (substring containment, case sensitive). -/
def strContains (hay needle : String) : Bool :=
  hay.toList.tails.any (fun t => needle.toList.isPrefixOf t)

/-- Python `s.startswith(p)`. -/
def strStartsWith (s p : String) : Bool :=
  p.toList.isPrefixOf s.toList

/-- Python `s.strip()` (drop leading and trailing whitespace). -/
def pyStrip (s : String) : String :=
  String.mk (((s.toList.dropWhile Char.isWhitespace).reverse.dropWhile
    Char.isWhitespace).reverse)

/-- Python `s[:n]` for a nonnegative bound (slicing by code points). -/
def pyTake (s : String) (n : Nat) : String :=
  String.mk (s.toList.take n)

/-- Python `s.lower()`. -/
def pyLower (s : String) : String :=
  String.mk (s.toList.map Char.toLower)

/-- Python `len(s)` (number of code points). -/
def pyLen (s : String) : Nat :=
  s.toList.length

/-- Python `sep.join(items)`. -/
def joinWith (sep : String) : List String → String
  | [] => ""
  | [x] => x
  | x :: xs => x ++ sep ++ joinWith sep xs

/-- Split a character list at the first occurrence of `sep`, returning the
parts before and after it; `none` when `sep` does not occur. -/
def splitFirst (sep : List Char) : List Char → Option (List Char × List Char)
  | [] => none
  | c :: rest =>
    if sep.isPrefixOf (c :: rest) then some ([], (c :: rest).drop sep.length)
    else
      match splitFirst sep rest with
      | some (a, b) => some (c :: a, b)
      | none => none

/-- The `scheme` and `netloc` fields of Python `urllib.parse.urlparse`,
for the absolute URLs the site registry stores (`scheme://netloc/...`);
a string with no `://` parses with empty scheme and netloc. -/
def schemeNetloc (base : String) : String × String :=
  match splitFirst "://".toList base.toList with
  | some (sch, rest) => (String.mk sch, String.mk (rest.takeWhile (fun c => c != '/')))
  | none => ("", "")

/-! ## `src/sources/web_news.py` — data model -/

/-- `WebArticle` dataclass (`web_news.py` lines 12-19). -/
structure WebArticle where
  title : String
  author : String
  excerpt : String
  content : String
  url : String
  source : String
deriving Repr, DecidableEq

/-- One entry of the `SITE_CONFIGS` registry (`web_news.py` lines 23-69).
The selector strings themselves only matter through the DOM observations
they produce, which the embedding takes as explicit inputs; the fields the
string-level logic reads are the display name, the listing URL and the
exclude patterns. -/
structure SiteConfig where
  name : String
  base_url : String
  exclude_patterns : List String
deriving Repr, DecidableEq

/-- The `techcrunch` entry of `SITE_CONFIGS` (`web_news.py` lines 33-41),
used as a concrete registry element in witnesses. -/
def techcrunchConfig : SiteConfig :=
  { name := "TechCrunch"
    base_url := "https://techcrunch.com/tag/artificial-intelligence/"
    exclude_patterns := ["/author/", "/tag/", "/category/", "/event/"] }

/-! ## Link discovery (`web_news.py` lines 96-126)

The listing page is observed as the list of `href` attribute values of the
elements matching the link selector, in DOM order; `none` models an element
whose `href` attribute is absent (Python `None`). -/

/-- Python `f"{parsed.scheme}://{parsed.netloc}{href}"` resolution of a
root-relative href (`web_news.py` lines 106-110); other hrefs pass through. -/
def resolveHref (base href : String) : String :=
  if strStartsWith href "/" then
    (schemeNetloc base).1 ++ "://" ++ (schemeNetloc base).2 ++ href
  else href

/-- The link collection loop of `scrape_web_source` (`web_news.py` lines
99-126): skip absent or empty hrefs, resolve root-relative ones against the
listing origin, skip already seen URLs and URLs containing an exclude
pattern, and stop as soon as the accumulator has reached `maxA` entries
(the length test runs after the append, so it is checked against the
accumulator that already holds the new link). -/
def discoverLoop (cfg : SiteConfig) (seen acc : List String) (maxA : Nat) :
    List (Option String) → List String
  | [] => acc
  | h :: rest =>
    match h with
    | none => discoverLoop cfg seen acc maxA rest
    | some h0 =>
      if h0 = "" then discoverLoop cfg seen acc maxA rest
      else
        let href := resolveHref cfg.base_url h0
        if href ∈ seen then discoverLoop cfg seen acc maxA rest
        else if cfg.exclude_patterns.any (fun p => strContains href p) then
          discoverLoop cfg seen acc maxA rest
        else
          if maxA ≤ (acc ++ [href]).length then acc ++ [href]
          else discoverLoop cfg (href :: seen) (acc ++ [href]) maxA rest

/-- Link discovery of `scrape_web_source`: the collection loop started with
an empty seen-set and an empty accumulator. -/
def discoverLinks (cfg : SiteConfig) (hrefs : List (Option String)) (maxA : Nat) :
    List String :=
  discoverLoop cfg [] [] maxA hrefs

/-! ## Article extraction (`web_news.py` lines 129-169)

A detail page is observed as the inner text of the first title match
(`none` when the title selector matches no element), the inner text of the
first author match, and the inner texts of the content matches in DOM
order. A navigation or query failure on one page is an `Except.error`. -/

/-- Observed DOM data of one detail page. -/
structure PageData where
  titleText : Option String
  authorText : Option String
  contentTexts : List String
deriving Repr, DecidableEq

/-- Title extraction (`web_news.py` line 136): the inner text of the first
match, or the placeholder `"Kein Titel"` when the selector matches nothing. -/
def extractTitle (pd : PageData) : String :=
  match pd.titleText with
  | some t => t
  | none => "Kein Titel"

/-- Author extraction (`web_news.py` lines 139-144): the stripped author
text when it is nonempty and shorter than 100 characters, otherwise the
display name of the source as fallback. -/
def extractAuthor (cfg : SiteConfig) (pd : PageData) : String :=
  match pd.authorText with
  | some a => if a ≠ "" ∧ pyLen a < 100 then pyStrip a else cfg.name
  | none => cfg.name

/-- Body extraction (`web_news.py` lines 147-154): the first 12 content
matches, keeping only texts longer than 30 characters, each stripped, and
joined with blank lines. -/
def extractContent (pd : PageData) : String :=
  joinWith "\n\n" (((pd.contentTexts.take 12).filter
    (fun t => t ≠ "" ∧ 30 < pyLen t)).map pyStrip)

/-- The per-page record construction of `scrape_web_source` (`web_news.py`
lines 134-165): a `WebArticle` is appended exactly when both the title
string and the joined body are nonempty (Python truthiness of
`if title and content:`). -/
def extractArticle (cfg : SiteConfig) (url : String) (pd : PageData) :
    Option WebArticle :=
  let title := extractTitle pd
  let content := extractContent pd
  if title ≠ "" ∧ content ≠ "" then
    some { title := pyStrip title
           author := extractAuthor cfg pd
           excerpt := if 300 < pyLen content then pyTake content 300 ++ "..." else content
           content := pyTake content 2000
           url := url
           source := cfg.name }
  else none

/-- The detail loop of `scrape_web_source` (`web_news.py` lines 129-169):
each URL is fetched through the oracle; a per-page exception
(`Except.error`) is caught by the `except` clause and that URL is skipped;
a fetched page contributes a record exactly when `extractArticle` yields
one. The loop itself never propagates an error. -/
def processArticles (cfg : SiteConfig) (fetch : String → Except String PageData) :
    List String → List WebArticle
  | [] => []
  | url :: rest =>
    match fetch url with
    | Except.error _ => processArticles cfg fetch rest
    | Except.ok pd =>
      match extractArticle cfg url pd with
      | some a => a :: processArticles cfg fetch rest
      | none => processArticles cfg fetch rest

/-- `scrape_web_source` after the listing page was loaded (`web_news.py`
lines 90-176): when the listing navigation fails the outer `except`
returns the empty accumulator, otherwise discovery feeds the detail loop
over `article_links[:max_articles]`. -/
def scrape_web_source (cfg : SiteConfig) (listingError : Bool)
    (hrefs : List (Option String)) (fetch : String → Except String PageData)
    (maxA : Nat) : List WebArticle :=
  if listingError then []
  else processArticles cfg fetch ((discoverLinks cfg hrefs maxA).take maxA)

/-- `format_articles_for_llm` entry block for one article (`web_news.py`
lines 188-198), with the 1-based index of the enumeration. -/
def articleBlock (i : Nat) (a : WebArticle) : String :=
  "\n## Artikel #" ++ toString i ++ ": " ++ a.title ++
  "\n- **Autor:** " ++ a.author ++
  "\n- **Quelle:** " ++ a.source ++
  "\n- **ARTIKEL-URL:** " ++ a.url ++
  "\n\n**Inhalt:**\n" ++ a.content ++ "\n\n---\n"

/-- `format_articles_for_llm` (`web_news.py` lines 179-200): a fallback
line for an empty list, otherwise a heading, the citation instruction and
one numbered block per article, joined by newlines. -/
def format_articles_for_llm (articles : List WebArticle) (source_name : String) :
    String :=
  if articles = [] then "Keine Artikel von " ++ source_name ++ " gefunden."
  else
    joinWith "\n"
      (("# " ++ source_name ++ " News\n") ::
       "WICHTIG: Nutze die Artikel-URLs in deiner Zusammenfassung als Quellenlinks!\n" ::
       articles.enum.map (fun p => articleBlock (p.1 + 1) p.2))

/-! ## `src/sources/linkedin.py` — login state machine and feed scraper -/

/-- `LinkedInPost` dataclass (`linkedin.py` lines 12-20). -/
structure LinkedInPost where
  author : String
  author_headline : String
  content : String
  time_ago : String
  reactions : String
  comments : String
  url : String
deriving Repr, DecidableEq

/-- Observed outcomes of one `login_linkedin` invocation (`linkedin.py`
lines 27-66): whether some step up to and including the credential submit
raised (navigation, `wait_for_selector`, fills, click — all caught by the
outer `except`), whether `wait_for_url("**/feed/**")` succeeded within its
timeout, the value of `page.url` when that wait failed, and the value of
`page.url` observed by the i-th challenge poll (the poll after the (i+1)-th
one-second sleep). -/
structure LoginEnv where
  preSubmitError : Option String
  feedWaitOk : Bool
  urlAfterWait : String
  pollUrls : Nat → String

/-- The challenge detection test of `login_linkedin` (`linkedin.py` line 51):
the post-submit URL contains `checkpoint`, `security` or `challenge`. -/
def isChallengeUrl (u : String) : Bool :=
  strContains u "checkpoint" || strContains u "security" || strContains u "challenge"

/-- The manual-verification polling loop of `login_linkedin` (`linkedin.py`
lines 56-61): with `r` iterations left and `i` polls already consumed, sleep
one second, read `page.url`, and return `true` as soon as it contains
`feed`; when the loop ends, the final `return "feed" in page.url` re-reads
`page.url`, which — with no suspension point after the last poll — is still
the URL the last poll observed, `pollUrls (i - 1)`. -/
def challengeLoop (pollUrls : Nat → String) : Nat → Nat → Bool
  | i, 0 => strContains (pollUrls (i - 1)) "feed"
  | i, r + 1 =>
    if strContains (pollUrls i) "feed" then true
    else challengeLoop pollUrls (i + 1) r

/-- `login_linkedin` (`linkedin.py` lines 27-66) as a function of the
observed navigation outcomes: any pre-submit exception is caught by the
outer `except` and yields `false`; a successful feed wait yields `true`; a
challenge URL enters the 60-iteration polling loop; any other post-submit
URL yields `false`. Totality of this definition is the no-infinite-loop
property: the poll budget is hard-wired to 60. -/
def login_linkedin (env : LoginEnv) : Bool :=
  match env.preSubmitError with
  | some _ => false
  | none =>
    if env.feedWaitOk then true
    else if isChallengeUrl env.urlAfterWait then challengeLoop env.pollUrls 0 60
    else false

/-- Observed DOM data of one feed item (`linkedin.py` lines 160-208):
inner texts of the author, headline, content, time, reactions and comments
elements (`none` when the element is absent; for content, the
`break-words` fallback query is already folded into the observation), and
the `data-urn` attribute. -/
structure PostObs where
  authorText : Option String
  headlineText : Option String
  contentText : Option String
  timeText : Option String
  reactionsText : Option String
  commentsText : Option String
  urnAttr : Option String
deriving Repr, DecidableEq

/-- The field normalization of one feed item (`linkedin.py` lines 162-197). -/
def buildLinkedInPost (o : PostObs) : LinkedInPost :=
  let author := pyStrip (o.authorText.getD "Unbekannt")
  let headline :=
    match o.headlineText with
    | none => ""
    | some h =>
      if h = "" then ""
      else String.mk ((pyStrip h).toList.takeWhile (fun c => c != '\n'))
  let content := pyTake (pyStrip (o.contentText.getD "")) 500
  let time_ago :=
    match o.timeText with
    | none => ""
    | some t =>
      if t = "" then ""
      else pyStrip (String.mk ((pyStrip t).toList.takeWhile (fun c => c != '•')))
  let comments :=
    match o.commentsText with
    | none => "0"
    | some t => if t ≠ "" then pyStrip t else "0"
  { author := author
    author_headline := headline
    content := content
    time_ago := time_ago
    reactions := o.reactionsText.getD "0"
    comments := comments
    url :=
      match o.urnAttr with
      | some urn => "https://www.linkedin.com/feed/update/" ++ urn ++ "/"
      | none => "" }

/-- The feed-item loop (`linkedin.py` lines 160-211): the first `maxPosts`
items; a per-item exception is caught and that item skipped; a parsed item
is kept only when its normalized content is nonempty (`if content:`). -/
def extractFeedPosts (items : List (Except String PostObs)) (maxPosts : Nat) :
    List LinkedInPost :=
  go (items.take maxPosts)
where
  go : List (Except String PostObs) → List LinkedInPost
  | [] => []
  | Except.error _ :: rest => go rest
  | Except.ok o :: rest =>
    let p := buildLinkedInPost o
    if p.content ≠ "" then p :: go rest else go rest

/-- Observed outcomes of one `scrape_linkedin_feed` run (`linkedin.py`
lines 69-218): whether the feed navigation itself raised (caught by the
outer `except`, which then returns the posts collected so far), the value
of `page.url` after navigating to the feed landing page, the login
observations, and the observed feed items. -/
structure FeedEnv where
  navError : Bool
  urlAfterFeedNav : String
  loginEnv : LoginEnv
  feedItems : List (Except String PostObs)

/-- The redirect-to-login test of `scrape_linkedin_feed` (`linkedin.py`
line 114): the lowercased URL contains `login` or `authwall`. -/
def loginRequired (url : String) : Bool :=
  strContains (pyLower url) "login" || strContains (pyLower url) "authwall"

/-- `scrape_linkedin_feed` (`linkedin.py` lines 69-218): a navigation
failure returns the empty accumulator; a URL on login or authwall invokes
`login_linkedin` and returns the empty list when it reports failure;
otherwise (session reused, or login succeeded) the feed items are parsed. -/
def scrape_linkedin_feed (env : FeedEnv) (maxPosts : Nat) : List LinkedInPost :=
  if env.navError then []
  else if loginRequired env.urlAfterFeedNav then
    if login_linkedin env.loginEnv then extractFeedPosts env.feedItems maxPosts
    else []
  else extractFeedPosts env.feedItems maxPosts

/-- The login states of the session lifecycle (spec section 3); the code
realizes them as control-flow positions of `scrape_linkedin_feed` and
`login_linkedin`. -/
inductive SessionState where
  | Anonymous
  | LoginSubmitted
  | AwaitingChallenge
  | Authenticated
  | Failed
deriving Repr, DecidableEq

/-- The states traversed by one `login_linkedin` invocation: a pre-submit
exception fails before the credentials are submitted; after the submit
(`LoginSubmitted`), the feed wait decides between `Authenticated`, the
challenge poll (`AwaitingChallenge` and then its outcome) and `Failed`. -/
def loginTrace (env : LoginEnv) : List SessionState :=
  match env.preSubmitError with
  | some _ => [SessionState.Failed]
  | none =>
    SessionState.LoginSubmitted ::
      (if env.feedWaitOk then [SessionState.Authenticated]
       else if isChallengeUrl env.urlAfterWait then
         SessionState.AwaitingChallenge ::
           (if challengeLoop env.pollUrls 0 60 then [SessionState.Authenticated]
            else [SessionState.Failed])
       else [SessionState.Failed])

/-- The states traversed by one `scrape_linkedin_feed` run: starting
`Anonymous`, the redirect test either enters the login routine or reaches
`Authenticated` directly (session reuse, `linkedin.py` line 122). -/
def sessionTrace (env : FeedEnv) : List SessionState :=
  if env.navError then [SessionState.Anonymous]
  else if loginRequired env.urlAfterFeedNav then
    SessionState.Anonymous :: loginTrace env.loginEnv
  else [SessionState.Anonymous, SessionState.Authenticated]

/-! ## `src/sources/reddit.py` — per-item failure isolation -/

/-- `RedditPost` dataclass (`reddit.py` lines 11-19). -/
structure RedditPost where
  title : String
  author : String
  url : String
  score : String
  comments : String
  time_ago : String
  subreddit : String
deriving Repr, DecidableEq

/-- The feed-item loop of `scrape_subreddit` (`reddit.py` lines 46-85):
each of the first `maxPosts` `div.thing.link` elements is parsed inside a
`try` whose body always appends a post on success; the oracle therefore
maps an item either to the post its queries produce or to the exception
message one of the awaited queries raised, and an exception skips exactly
that item. -/
def scrape_subreddit_items (things : List (Except String RedditPost))
    (maxPosts : Nat) : List RedditPost :=
  go (things.take maxPosts)
where
  go : List (Except String RedditPost) → List RedditPost
  | [] => []
  | Except.error _ :: rest => go rest
  | Except.ok p :: rest => p :: go rest

/-! ## `src/llm/summarizer.py` — downstream call boundary -/

/-- Outcome of the one `httpx` POST in `create_executive_briefing`
(`summarizer.py` lines 416-431): the parsed message content on success, an
`httpx.HTTPStatusError` raised by `raise_for_status` on a non-success
status, or any other exception (network failure, JSON shape mismatch, ...)
with its message. -/
inductive HttpOutcome where
  | success (content : String)
  | httpStatusError (status : Nat) (text : String)
  | otherError (msg : String)
deriving Repr, DecidableEq

/-- The `try/except` tail of `create_executive_briefing` (`summarizer.py`
lines 416-431): the content on success, and on either failure class a
tagged failure string carrying the status and body, or the exception
message. The definition is total: every exception class is caught and
rendered, none propagates. -/
def create_executive_briefing (o : HttpOutcome) : String :=
  match o with
  | HttpOutcome.success content => content
  | HttpOutcome.httpStatusError status text =>
    "❌ API-Fehler: " ++ toString status ++ " - " ++ text
  | HttpOutcome.otherError msg =>
    "❌ Fehler bei der Briefing-Erstellung: " ++ msg

/-- `summarize_posts` (`summarizer.py` lines 435-442): the legacy function
returns its `posts_text` argument unchanged. -/
def summarize_posts (posts_text source_name api_key model : String) : String :=
  posts_text

/-- `create_combined_summary` (`summarizer.py` lines 445-451): the legacy
function always returns `None`. -/
def create_combined_summary (summaries : List (String × String))
    (api_key model : String) : Option String :=
  none

/-- The meta-section step of `run_newsbot` (`main.py` lines 580-585): with
more than one per-source summary, `create_combined_summary` is called and
its result appended as a section only when truthy (`if meta_summary:`). -/
def metaSectionAdded (summaries : List (String × String))
    (api_key model : String) : Bool :=
  if 1 < summaries.length then
    match create_combined_summary summaries api_key model with
    | some ms => ms ≠ ""
    | none => false
  else false

/-- The per-source section text of `run_newsbot` (`main.py` lines 427-439,
461-471, 490-500, 517-527, 554-566): each section stores the value of
`summarize_posts` applied to the formatted scrape text. -/
def sectionText (formatted source_name api_key model : String) : String :=
  summarize_posts formatted source_name api_key model

/-! ## Derived item predicates and concrete fixtures used by the theorems -/

/-- Whether the detail-page visit of one URL raises (`web_news.py` lines
167-169): the caught, logged, per-item failure. -/
def webItemFails (fetch : String → Except String PageData) (u : String) : Bool :=
  match fetch u with
  | Except.error _ => true
  | Except.ok _ => false

/-- Whether one URL contributes a record to the batch of
`scrape_web_source`. -/
def webItemKept (cfg : SiteConfig) (fetch : String → Except String PageData)
    (u : String) : Bool :=
  match fetch u with
  | Except.error _ => false
  | Except.ok pd => (extractArticle cfg u pd).isSome

/-- Whether one reddit feed item parses without raising. -/
def redditItemOk : Except String RedditPost → Bool
  | Except.error _ => false
  | Except.ok _ => true

/-- Descriptor of the C7 scenario. -/
def scenarioConfig : SiteConfig where
  name := "Example"
  base_url := "https://s.example/list"
  exclude_patterns := ["/tag/", "/author/"]

/-- A detail page whose title selector matches no element but whose body
extraction succeeds (`web_news.py` line 136 then line 157). -/
def noTitlePage : PageData where
  titleText := none
  authorText := none
  contentTexts :=
    ["This paragraph body is comfortably longer than thirty characters."]

/-- A detail page on which extraction fully succeeds. -/
def goodPage : PageData where
  titleText := some "A headline"
  authorText := none
  contentTexts :=
    ["This paragraph body is comfortably longer than thirty characters."]

/-- A batch of ten detail URLs. -/
def batchUrls : List String :=
  ["u0", "u1", "u2", "u3", "u4", "u5", "u6", "u7", "u8", "u9"]

/-- A fetch oracle on which exactly the fourth URL raises. -/
def batchFetch : String → Except String PageData :=
  fun u =>
    if u = "u3" then Except.error "Timeout 20000ms exceeded"
    else Except.ok goodPage

/-- A fully parsed reddit post. -/
def sampleRedditPost : RedditPost where
  title := "A post title"
  author := "someuser"
  url := "https://old.reddit.com/r/ClaudeAI/comments/abc/"
  score := "42"
  comments := "7 comments"
  time_ago := ""
  subreddit := "ClaudeAI"

/-- A batch of ten reddit feed items of which exactly the fourth raises. -/
def batchThings : List (Except String RedditPost) :=
  [Except.ok sampleRedditPost, Except.ok sampleRedditPost,
   Except.ok sampleRedditPost, Except.error "stale element",
   Except.ok sampleRedditPost, Except.ok sampleRedditPost,
   Except.ok sampleRedditPost, Except.ok sampleRedditPost,
   Except.ok sampleRedditPost, Except.ok sampleRedditPost]

/-- A login run stuck on the security challenge: credential submission
lands on a checkpoint URL and every poll still observes it. -/
def challengeStuckLogin : LoginEnv where
  preSubmitError := none
  feedWaitOk := false
  urlAfterWait := "https://www.linkedin.com/checkpoint/challenge/verify"
  pollUrls := fun _ => "https://www.linkedin.com/checkpoint/challenge/verify"

/-- A feed run whose persistent profile is already authenticated: the
feed navigation stays on the feed URL. -/
def reusedSessionEnv : FeedEnv where
  navError := false
  urlAfterFeedNav := "https://www.linkedin.com/feed/"
  loginEnv := challengeStuckLogin
  feedItems := []

/-- A login run that fails before the submit (login form never appears). -/
def failedLoginEnv : LoginEnv where
  preSubmitError := some "Timeout waiting for selector username"
  feedWaitOk := false
  urlAfterWait := ""
  pollUrls := fun _ => ""

/-- A feed run redirected to the login wall whose login then fails. -/
def loginWallEnv : FeedEnv where
  navError := false
  urlAfterFeedNav := "https://www.linkedin.com/login"
  loginEnv := failedLoginEnv
  feedItems := []

/-- The single record of the C8 scenario. -/
def articleX : WebArticle where
  title := "X"
  author := "Y"
  excerpt := "Z"
  content := "Z"
  url := "https://s/1"
  source := "Test"

/-! ## Helper lemmas about the string primitives -/

theorem toList_append (a b : String) : (a ++ b).toList = a.toList ++ b.toList :=
  String.data_append a b

theorem strContains_iff {hay needle : String} :
    strContains hay needle = true ↔ needle.toList <:+: hay.toList := by
  unfold strContains
  rw [List.any_eq_true]
  constructor
  · rintro ⟨t, ht, hp⟩
    rw [List.mem_tails] at ht
    rw [ List.isPrefixOf_iff_prefix] at hp
    exact List.infix_iff_prefix_suffix.mpr ⟨t, hp, ht⟩
  · intro h
    obtain ⟨t, hp, ht⟩ := List.infix_iff_prefix_suffix.mp h
    refine ⟨t, (List.mem_tails _ _).mpr ht, ?_⟩
    exact List.isPrefixOf_iff_prefix.mpr hp

theorem strContains_append_left (a b n : String)
    (h : strContains a n = true) : strContains (a ++ b) n = true := by
  rw [strContains_iff] at h ⊢
  rw [toList_append]
  exact h.trans ((List.prefix_append _ _).isInfix)

theorem strContains_append_right (a b n : String)
    (h : strContains b n = true) : strContains (a ++ b) n = true := by
  rw [strContains_iff] at h ⊢
  rw [toList_append]
  exact h.trans ((List.suffix_append _ _).isInfix)

theorem strContains_refl (s : String) : strContains s s = true := by
  rw [strContains_iff]

theorem strStartsWith_append_left (a b p : String)
    (h : strStartsWith a p = true) : strStartsWith (a ++ b) p = true := by
  unfold strStartsWith at h ⊢
  rw [ List.isPrefixOf_iff_prefix] at h ⊢
  rw [toList_append]
  exact h.trans (List.prefix_append _ _)

/-! ## Invariants of the link collection loop -/

theorem discoverLoop_spec (cfg : SiteConfig) :
    ∀ (hrefs : List (Option String)) (seen acc : List String) (maxA : Nat),
      acc.Nodup → (∀ u ∈ acc, u ∈ seen) →
      (∀ u ∈ acc, ∀ p ∈ cfg.exclude_patterns, strContains u p = false) →
      acc.length < maxA →
      (discoverLoop cfg seen acc maxA hrefs).length ≤ maxA ∧
      (discoverLoop cfg seen acc maxA hrefs).Nodup ∧
      (∀ u ∈ discoverLoop cfg seen acc maxA hrefs,
        ∀ p ∈ cfg.exclude_patterns, strContains u p = false) := by
  intro hrefs
  induction hrefs with
  | nil =>
    intro seen acc maxA h1 h2 h3 h4
    simp only [discoverLoop]
    exact ⟨Nat.le_of_lt h4, h1, h3⟩
  | cons h rest ih =>
    intro seen acc maxA h1 h2 h3 h4
    match h with
    | none =>
      simp only [discoverLoop]
      exact ih seen acc maxA h1 h2 h3 h4
    | some h0 =>
      simp only [discoverLoop]
      by_cases he : h0 = ""
      · rw [if_pos he]
        exact ih seen acc maxA h1 h2 h3 h4
      · rw [if_neg he]
        by_cases hseen : resolveHref cfg.base_url h0 ∈ seen
        · rw [if_pos hseen]
          exact ih seen acc maxA h1 h2 h3 h4
        · rw [if_neg hseen]
          by_cases hskip :
              cfg.exclude_patterns.any
                (fun p => strContains (resolveHref cfg.base_url h0) p) = true
          · rw [if_pos hskip]
            exact ih seen acc maxA h1 h2 h3 h4
          · rw [if_neg hskip]
            have hnp : ∀ p ∈ cfg.exclude_patterns,
                strContains (resolveHref cfg.base_url h0) p = false := by
              intro p hp
              by_contra hc
              exact hskip (List.any_eq_true.mpr ⟨p, hp, by simpa using hc⟩)
            have hnotin : resolveHref cfg.base_url h0 ∉ acc :=
              fun hc => hseen (h2 _ hc)
            have h1' : (acc ++ [resolveHref cfg.base_url h0]).Nodup := by
              rw [List.nodup_append]
              refine ⟨h1, List.nodup_singleton _, ?_⟩
              intro a ha hb
              rw [List.mem_singleton] at hb
              subst hb
              exact hnotin ha
            have h3' : ∀ u ∈ acc ++ [resolveHref cfg.base_url h0],
                ∀ p ∈ cfg.exclude_patterns, strContains u p = false := by
              intro u hu p hp
              rcases List.mem_append.mp hu with hm | hm
              · exact h3 u hm p hp
              · rw [List.mem_singleton] at hm
                subst hm
                exact hnp p hp
            by_cases hbreak : maxA ≤ (acc ++ [resolveHref cfg.base_url h0]).length
            · rw [if_pos hbreak]
              refine ⟨?_, h1', h3'⟩
              have : (acc ++ [resolveHref cfg.base_url h0]).length = acc.length + 1 := by
                simp
              omega
            · rw [if_neg hbreak]
              refine ih (resolveHref cfg.base_url h0 :: seen)
                (acc ++ [resolveHref cfg.base_url h0]) maxA h1' ?_ h3' (by omega)
              intro u hu
              rcases List.mem_append.mp hu with hm | hm
              · exact List.mem_cons_of_mem _ (h2 u hm)
              · rw [List.mem_singleton] at hm
                subst hm
                exact List.mem_cons_self _ _

/-! ## Counting lemmas for the per-item loops -/

theorem processArticles_length (cfg : SiteConfig)
    (fetch : String → Except String PageData) :
    ∀ urls : List String,
      (processArticles cfg fetch urls).length =
        urls.countP (webItemKept cfg fetch) := by
  intro urls
  induction urls with
  | nil => simp [processArticles]
  | cons u rest ih =>
    cases hf : fetch u with
    | error e =>
      have hk : webItemKept cfg fetch u = false := by
        unfold webItemKept
        rw [hf]
      simp [processArticles, hf, List.countP_cons, hk, ih]
    | ok pd =>
      cases ha : extractArticle cfg u pd with
      | none =>
        have hk : webItemKept cfg fetch u = false := by
          unfold webItemKept
          rw [hf]
          simp [ha]
        simp [processArticles, hf, ha, List.countP_cons, hk, ih]
      | some a =>
        have hk : webItemKept cfg fetch u = true := by
          unfold webItemKept
          rw [hf]
          simp [ha]
        simp [processArticles, hf, ha, List.countP_cons, hk, ih]

theorem scrape_subreddit_go_length :
    ∀ l : List (Except String RedditPost),
      (scrape_subreddit_items.go l).length = l.countP redditItemOk := by
  intro l
  induction l with
  | nil => simp [scrape_subreddit_items.go]
  | cons t rest ih =>
    cases t with
    | error e => simp [scrape_subreddit_items.go, redditItemOk, ih]
    | ok p => simp [scrape_subreddit_items.go, redditItemOk, ih]

/-! ## Behavior of the challenge polling loop -/

theorem challengeLoop_false (pollUrls : Nat → String) :
    ∀ (r i : Nat), 0 < i + r →
      (∀ j, j < i + r → strContains (pollUrls j) "feed" = false) →
      challengeLoop pollUrls i r = false := by
  intro r
  induction r with
  | zero =>
    intro i hpos hall
    simp only [challengeLoop]
    exact hall (i - 1) (by omega)
  | succ r ih =>
    intro i hpos hall
    simp only [challengeLoop]
    rw [hall i (by omega)]
    simp only [Bool.false_eq_true, if_false]
    exact ih (i + 1) (by omega) (fun j hj => hall j (by omega))

theorem challengeLoop_reads_only_budget :
    ∀ (r i : Nat) (f g : Nat → String), 0 < i + r →
      (∀ j, j < i + r → f j = g j) →
      challengeLoop f i r = challengeLoop g i r := by
  intro r
  induction r with
  | zero =>
    intro i f g hpos hagree
    simp only [challengeLoop]
    rw [hagree (i - 1) (by omega)]
  | succ r ih =>
    intro i f g hpos hagree
    simp only [challengeLoop]
    rw [hagree i (by omega)]
    cases strContains (g i) "feed" with
    | true => simp
    | false =>
      simp only [Bool.false_eq_true, if_false]
      exact ih (i + 1) f g (by omega) (fun j hj => hagree j (by omega))

theorem loginTrace_failed_of_false (env : LoginEnv)
    (h : login_linkedin env = false) : SessionState.Failed ∈ loginTrace env := by
  unfold login_linkedin at h
  unfold loginTrace
  cases hpre : env.preSubmitError with
  | some e => simp
  | none =>
    rw [hpre] at h
    by_cases hw : env.feedWaitOk = true
    · rw [if_pos hw] at h
      exact absurd h (by simp)
    · rw [if_neg hw] at h
      rw [if_neg hw]
      by_cases hch : isChallengeUrl env.urlAfterWait = true
      · rw [if_pos hch] at h
        rw [if_pos hch]
        simp only [] at h
        simp [h]
      · rw [if_neg hch]
        simp

/-! ## Claim C1 — record emission and the missing-title fallback -/

/-- C1, claim as frozen, is false on the code: on a page where the title
selector matches no element, extraction is not treated as a failure; the
title falls back to the nonempty placeholder `Kein Titel` and a record is
emitted as soon as the body extraction succeeds. -/
theorem C1_counterexample :
    noTitlePage.titleText = none ∧
    extractContent noTitlePage ≠ "" ∧
    extractArticle techcrunchConfig
      "https://techcrunch.com/2026/01/02/a/" noTitlePage ≠ none ∧
    (extractArticle techcrunchConfig
        "https://techcrunch.com/2026/01/02/a/" noTitlePage).map
      WebArticle.title = some "Kein Titel" := by
  refine ⟨rfl, by decide, by decide, by decide⟩

/-- C1 (amended): a record is emitted exactly when both the title string
and the extracted body are nonempty — where a title selector matching no
element yields the nonempty placeholder `Kein Titel` rather than a
failure, so only an empty body (or a title element carrying empty text)
suppresses the record. -/
theorem C1_record_iff_nonempty_title_body (cfg : SiteConfig) (url : String)
    (pd : PageData) :
    ((extractArticle cfg url pd).isSome ↔
      (extractTitle pd ≠ "" ∧ extractContent pd ≠ "")) ∧
    (pd.titleText = none → extractTitle pd = "Kein Titel") := by
  constructor
  · unfold extractArticle
    by_cases h : extractTitle pd ≠ "" ∧ extractContent pd ≠ ""
    · simp [h]
    · simp only [if_neg h]
      simp [h]
  · intro h
    simp [extractTitle, h]

/-- Witness for C1 at the concrete no-title page. -/
theorem C1_witness : extractTitle noTitlePage = "Kein Titel" :=
  (C1_record_iff_nonempty_title_body techcrunchConfig
    "https://techcrunch.com/2026/01/02/a/" noTitlePage).2 rfl

/-! ## Claim C2 — link discovery bound, duplicates, exclude patterns -/

/-- C2 (amended): for every descriptor and every bound `maxLinks ≥ 1`,
link discovery returns at most `maxLinks` URLs, with no duplicate (exact,
case-sensitive string equality) and no URL containing one of the exclude
patterns as a substring. The restriction to positive bounds is forced:
the loop compares the bound only after appending, see `C2_counterexample`. -/
theorem C2_discover_bounded_nodup_filtered (cfg : SiteConfig)
    (hrefs : List (Option String)) (maxA : Nat) (hpos : 1 ≤ maxA) :
    (discoverLinks cfg hrefs maxA).length ≤ maxA ∧
    (discoverLinks cfg hrefs maxA).Nodup ∧
    (∀ u ∈ discoverLinks cfg hrefs maxA,
      ∀ p ∈ cfg.exclude_patterns, strContains u p = false) :=
  discoverLoop_spec cfg hrefs [] [] maxA List.nodup_nil (by simp) (by simp) hpos

/-- C2, claim as frozen, is false at the bound `maxLinks = 0`: on the
TechCrunch descriptor and a listing with one acceptable link, discovery
returns one URL and exceeds the bound, because the loop appends before
testing `len(article_links) >= max_articles`. -/
theorem C2_counterexample :
    ¬ ((discoverLinks techcrunchConfig
        [some "/2026/01/02/some-ai-story/"] 0).length ≤ 0) := by
  decide

/-- Witness for C2 at the TechCrunch descriptor, a concrete listing and
bound 5. -/
theorem C2_witness :
    (1 : Nat) ≤ 5 ∧
    ((discoverLinks techcrunchConfig
        [some "/2026/01/02/a/", some "/tag/ai/", none, some "/2026/01/02/a/"]
        5).length ≤ 5 ∧
      (discoverLinks techcrunchConfig
        [some "/2026/01/02/a/", some "/tag/ai/", none, some "/2026/01/02/a/"]
        5).Nodup ∧
      (∀ u ∈ discoverLinks techcrunchConfig
          [some "/2026/01/02/a/", some "/tag/ai/", none, some "/2026/01/02/a/"] 5,
        ∀ p ∈ techcrunchConfig.exclude_patterns, strContains u p = false)) :=
  ⟨by decide,
    C2_discover_bounded_nodup_filtered techcrunchConfig
      [some "/2026/01/02/a/", some "/tag/ai/", none, some "/2026/01/02/a/"]
      5 (by decide)⟩

/-! ## Claim C3 — challenge polling terminates in failure after 60 polls -/

/-- C3: when credential submission lands on a challenge URL, the login
routine enters the polling loop; if none of its at most 60 polls observes
a URL containing the feed marker, `login_linkedin` returns `false`
(`Failed`), the traversed states are exactly submitted, awaiting
challenge, failed — and the loop inspects no poll beyond the 60th (its
result depends only on the first 60 observations). Termination itself
holds by construction: `challengeLoop` is a total function with poll
budget 60. -/
theorem C3_challenge_timeout_fails (env : LoginEnv)
    (hpre : env.preSubmitError = none)
    (hwait : env.feedWaitOk = false)
    (hch : isChallengeUrl env.urlAfterWait = true)
    (hpolls : ∀ i, i < 60 → strContains (env.pollUrls i) "feed" = false) :
    login_linkedin env = false ∧
    loginTrace env =
      [SessionState.LoginSubmitted, SessionState.AwaitingChallenge,
       SessionState.Failed] ∧
    (∀ g : Nat → String, (∀ j, j < 60 → env.pollUrls j = g j) →
      challengeLoop env.pollUrls 0 60 = challengeLoop g 0 60) := by
  have hcl : challengeLoop env.pollUrls 0 60 = false :=
    challengeLoop_false env.pollUrls 60 0 (by omega) (fun j hj => hpolls j (by omega))
  refine ⟨?_, ?_, ?_⟩
  · unfold login_linkedin
    rw [hpre, hwait, hch]
    simpa using hcl
  · unfold loginTrace
    rw [hpre, hwait, hch]
    simp [hcl]
  · intro g hagree
    exact challengeLoop_reads_only_budget 60 0 env.pollUrls g (by omega)
      (fun j hj => hagree j (by omega))

/-- Witness for C3 at a login run stuck on a checkpoint URL. -/
theorem C3_witness :
    login_linkedin challengeStuckLogin = false ∧
    loginTrace challengeStuckLogin =
      [SessionState.LoginSubmitted, SessionState.AwaitingChallenge,
       SessionState.Failed] ∧
    (∀ g : Nat → String, (∀ j, j < 60 → challengeStuckLogin.pollUrls j = g j) →
      challengeLoop challengeStuckLogin.pollUrls 0 60 = challengeLoop g 0 60) :=
  C3_challenge_timeout_fails challengeStuckLogin rfl rfl (by decide) (by decide)

/-! ## Claim C4 — authenticated session reuse never submits credentials -/

/-- C4: when navigating to the feed landing page leaves the browser on a
URL that is neither a login nor an authwall URL, the scrape proceeds
directly to feed extraction: `login_linkedin` is never invoked (its branch
is not taken, so the run equals plain feed extraction) and the session
trace is anonymous-then-authenticated, never containing `LoginSubmitted`. -/
theorem C4_session_reuse_skips_login (env : FeedEnv) (maxPosts : Nat)
    (hnav : env.navError = false)
    (hauth : loginRequired env.urlAfterFeedNav = false) :
    scrape_linkedin_feed env maxPosts = extractFeedPosts env.feedItems maxPosts ∧
    sessionTrace env = [SessionState.Anonymous, SessionState.Authenticated] ∧
    SessionState.LoginSubmitted ∉ sessionTrace env := by
  unfold scrape_linkedin_feed sessionTrace
  rw [hnav, hauth]
  simp

/-- Witness for C4 at a run whose profile is already authenticated. -/
theorem C4_witness :
    scrape_linkedin_feed reusedSessionEnv 20 =
      extractFeedPosts reusedSessionEnv.feedItems 20 ∧
    sessionTrace reusedSessionEnv =
      [SessionState.Anonymous, SessionState.Authenticated] ∧
    SessionState.LoginSubmitted ∉ sessionTrace reusedSessionEnv :=
  C4_session_reuse_skips_login reusedSessionEnv 20 rfl (by decide)

/-! ## Claim C5 — one failing item in a batch of ten yields nine records -/

/-- C5: in the detail loop of `scrape_web_source` and the item loop of
`scrape_subreddit`, a per-item failure is caught and only that item is
skipped: a batch of 10 items of which exactly one fails (and whose other
nine yield records) produces exactly 9 records. No exception escapes
either loop: both embeddings are total functions in which the error case
of the oracle is consumed by the `except` branch. -/
theorem C5_one_failure_in_ten_yields_nine (cfg : SiteConfig)
    (fetch : String → Except String PageData) (urls : List String)
    (things : List (Except String RedditPost))
    (hlen : urls.length = 10)
    (hfail : urls.countP (webItemFails fetch) = 1)
    (hok : ∀ u ∈ urls, webItemFails fetch u = false → webItemKept cfg fetch u = true)
    (hlen2 : things.length = 10)
    (hfail2 : things.countP (fun t => ! redditItemOk t) = 1) :
    (processArticles cfg fetch urls).length = 9 ∧
    (scrape_subreddit_items things 10).length = 9 := by
  constructor
  · rw [processArticles_length]
    have hsplit := List.length_eq_countP_add_countP (webItemFails fetch) urls
    have hcong : urls.countP (webItemKept cfg fetch) =
        urls.countP (fun u => decide (¬ webItemFails fetch u = true)) := by
      apply List.countP_congr
      intro x hx
      constructor
      · intro hk
        have : webItemFails fetch x = false := by
          unfold webItemFails webItemKept at *
          cases hf : fetch x with
          | error e => rw [hf] at hk; exact absurd hk (by simp)
          | ok pd => rfl
        simp [this]
      · intro hd
        have : webItemFails fetch x = false := by
          simpa using hd
        exact hok x hx this
    omega
  · unfold scrape_subreddit_items
    rw [hlen2.symm, List.take_length, scrape_subreddit_go_length]
    have hsplit := List.length_eq_countP_add_countP redditItemOk things
    have : things.countP (fun t => decide (¬ redditItemOk t = true)) =
        things.countP (fun t => ! redditItemOk t) := by
      apply List.countP_congr
      intro x hx
      cases h : redditItemOk x <;> simp [h]
    omega

/-- Witness for C5 at concrete batches of ten with one failure each. -/
theorem C5_witness :
    (processArticles techcrunchConfig batchFetch batchUrls).length = 9 ∧
    (scrape_subreddit_items batchThings 10).length = 9 :=
  C5_one_failure_in_ten_yields_nine techcrunchConfig batchFetch batchUrls
    batchThings (by decide) (by decide) (by decide) (by decide) (by decide)

/-! ## Claim C6 — login failure degrades the feed scrape to empty -/

/-- C6: whenever the login routine reports failure — including a challenge
that never resolves within its poll budget — `scrape_linkedin_feed`
returns the empty list, and the session trace contains `Failed`. No
exception propagates: the embedding is a total function; every raising
step of the run is consumed by an `except` branch of the source. -/
theorem C6_login_failure_returns_empty (env : FeedEnv) (maxPosts : Nat)
    (hnav : env.navError = false)
    (hreq : loginRequired env.urlAfterFeedNav = true)
    (hfail : login_linkedin env.loginEnv = false) :
    scrape_linkedin_feed env maxPosts = [] ∧
    SessionState.Failed ∈ sessionTrace env := by
  constructor
  · unfold scrape_linkedin_feed
    rw [hnav, hreq, hfail]
    simp
  · unfold sessionTrace
    rw [hnav, hreq]
    simp only [Bool.false_eq_true, if_false, if_pos]
    exact List.mem_cons_of_mem _ (loginTrace_failed_of_false env.loginEnv hfail)

/-- Witness for C6 at a run redirected to the login wall whose login
fails before the submit. -/
theorem C6_witness :
    scrape_linkedin_feed loginWallEnv 20 = [] ∧
    SessionState.Failed ∈ sessionTrace loginWallEnv :=
  C6_login_failure_returns_empty loginWallEnv 20 rfl (by decide) rfl

/-! ## Claim C7 — concrete discovery scenario -/

/-- C7: on a descriptor with exclude patterns `/tag/` and `/author/` and a
listing carrying hrefs `/a/1`, `/tag/ai`, `/a/2`, `/a/1` in DOM order with
bound 5, discovery returns exactly the two origin-resolved URLs of `/a/1`
and `/a/2`, in that order. -/
theorem C7_discovery_scenario :
    discoverLinks scenarioConfig
      [some "/a/1", some "/tag/ai", some "/a/2", some "/a/1"] 5 =
    ["https://s.example/a/1", "https://s.example/a/2"] := by
  decide

/-! ## Claim C8 — formatting emits the fields in a fixed relative order -/

set_option maxRecDepth 8192 in
/-- C8: formatting the single record with title `X`, author `Y`, URL
`https://s/1`, body `Z` under source name `Test` yields a block in which
`Test`, `X`, `Y`, `https://s/1`, `Z` occur in that relative order (the
block decomposes around them in order). -/
theorem C8_format_contains_in_order :
    ∃ s0 s1 s2 s3 s4 s5 : String,
      format_articles_for_llm [articleX] "Test" =
        s0 ++ "Test" ++ s1 ++ "X" ++ s2 ++ "Y" ++ s3 ++ "https://s/1" ++
          s4 ++ "Z" ++ s5 := by
  refine ⟨"# ",
    " News\n\nWICHTIG: Nutze die Artikel-URLs in deiner Zusammenfassung als Quellenlinks!\n\n\n## Artikel #1: ",
    "\n- **Autor:** ",
    "\n- **Quelle:** Test\n- **ARTIKEL-URL:** ",
    "\n\n**Inhalt:**\n",
    "\n\n---\n", ?_⟩
  decide

/-! ## Claim C9 — the downstream call boundary never raises -/

/-- C9: `create_executive_briefing` is a total function of the call
outcome — every failure of the downstream text-generation call is caught —
and each failure is returned as a tagged string: a non-success HTTP status
yields a `❌`-tagged string containing the status code and the response
body, any other exception yields a `❌`-tagged string containing its
message, and a success returns the parsed content unchanged. -/
theorem C9_downstream_failure_is_tagged (status : Nat) (text msg : String) :
    strStartsWith
      (create_executive_briefing (HttpOutcome.httpStatusError status text))
      "❌" = true ∧
    strContains
      (create_executive_briefing (HttpOutcome.httpStatusError status text))
      (toString status) = true ∧
    strContains
      (create_executive_briefing (HttpOutcome.httpStatusError status text))
      text = true ∧
    strStartsWith
      (create_executive_briefing (HttpOutcome.otherError msg)) "❌" = true ∧
    strContains
      (create_executive_briefing (HttpOutcome.otherError msg)) msg = true ∧
    (∀ c : String, create_executive_briefing (HttpOutcome.success c) = c) := by
  simp only [create_executive_briefing]
  refine ⟨?_, ?_, ?_, ?_, ?_, by simp⟩
  · exact strStartsWith_append_left _ text "❌"
      (strStartsWith_append_left _ " - " "❌"
        (strStartsWith_append_left "❌ API-Fehler: " (toString status) "❌"
          (by decide)))
  · exact strContains_append_left _ text (toString status)
      (strContains_append_left _ " - " (toString status)
        (strContains_append_right "❌ API-Fehler: " (toString status)
          (toString status) (strContains_refl (toString status))))
  · exact strContains_append_right _ text text (strContains_refl text)
  · exact strStartsWith_append_left "❌ Fehler bei der Briefing-Erstellung: "
      msg "❌" (by decide)
  · exact strContains_append_right "❌ Fehler bei der Briefing-Erstellung: "
      msg msg (strContains_refl msg)

/-! ## Claim C10 — the invoked summarization functions are pass-through -/

/-- C10: the summarization functions the orchestrator invokes perform no
transformation: `summarize_posts` returns its `posts_text` argument
unchanged for every `source_name`, `api_key` and `model`;
`create_combined_summary` always returns `none`; hence the meta-section
step of `run_newsbot` never adds the cross-source section and every
per-source section stores exactly the formatted scrape text. -/
theorem C10_legacy_passthrough :
    (∀ p s k m : String, summarize_posts p s k m = p) ∧
    (∀ (su : List (String × String)) (k m : String),
      create_combined_summary su k m = none) ∧
    (∀ (su : List (String × String)) (k m : String),
      metaSectionAdded su k m = false) ∧
    (∀ f s k m : String, sectionText f s k m = f) := by
  refine ⟨fun _ _ _ _ => rfl, fun _ _ _ => rfl, ?_, fun _ _ _ _ => rfl⟩
  intro su k m
  unfold metaSectionAdded create_combined_summary
  split
  · rfl
  · rfl
